import Mathlib

/-!
Shallow embedding of `src/src/components/MatchPredictionModal.tsx`
(a match-prediction modal and a player-details modal for an NBA
analytics front end).  Pure rendering helpers become Lean functions on
`ℚ`/`String`; the React `useState` fields become explicit state
records, and the event handlers become state-transition functions.
JavaScript numbers are modelled as rationals; a `parseFloat` result of
`NaN` is modelled by `Option.none`.
-/

/-- JS `x.toFixed(0)`: the integer `n` minimising `|n - x|`, ties resolved
to the larger `n` (ECMA-262, Number.prototype.toFixed), i.e. `⌊x + 1/2⌋`. -/
def jsRound (x : ℚ) : ℤ := ⌊x + 1/2⌋

/-- Home win-probability number rendered in the scoreboard
(`Math.max(0, prediction?.win_probability_home || 0).toFixed(0)`,
source line 297). -/
def winProbHomeDisplay (raw : ℚ) : ℤ := jsRound (max 0 raw)

/-- Away win-probability number rendered in the scoreboard
(`Math.max(0, 100 - (prediction?.win_probability_home || 0)).toFixed(0)`,
source line 309). -/
def winProbAwayDisplay (raw : ℚ) : ℤ := jsRound (max 0 (100 - raw))

/-- Text of the home probability badge, e.g. `"62%"`. -/
def winProbHomeBadge (raw : ℚ) : String := toString (winProbHomeDisplay raw) ++ "%"

/-- Text of the away probability badge, e.g. `"38%"`. -/
def winProbAwayBadge (raw : ℚ) : String := toString (winProbAwayDisplay raw) ++ "%"

/-- ASCII lower-casing of a character.  The JS `toLowerCase()` is the Unicode
mapping; every keyword the component matches against is pure lowercase ASCII
(plus the already-lowercase letters of the French keywords), so the ASCII
mapping agrees with the Unicode one on every comparison performed below. -/
def charToLower (c : Char) : Char :=
  if 65 ≤ c.toNat ∧ c.toNat ≤ 90 then Char.ofNat (c.toNat + 32) else c

/-- ASCII upper-casing of a character (JS `toUpperCase()`, see `charToLower`). -/
def charToUpper (c : Char) : Char :=
  if 97 ≤ c.toNat ∧ c.toNat ≤ 122 then Char.ofNat (c.toNat - 32) else c

/-- JS `s.toLowerCase()` (ASCII fragment). -/
def strToLower (s : String) : String := String.mk (s.data.map charToLower)

/-- JS `s.toUpperCase()` (ASCII fragment). -/
def strToUpper (s : String) : String := String.mk (s.data.map charToUpper)

/-- `needle` is a prefix of `hay` (on character lists). -/
def isPrefixCharList : List Char → List Char → Bool
  | [], _ => true
  | _ :: _, [] => false
  | a :: as, b :: bs => a == b && isPrefixCharList as bs

/-- `needle` occurs as a contiguous run inside `hay`. -/
def containsCharList (needle : List Char) : List Char → Bool
  | [] => isPrefixCharList needle []
  | c :: t => isPrefixCharList needle (c :: t) || containsCharList needle t

/-- JS `s.includes(sub)`: substring test. -/
def strIncludes (s sub : String) : Bool := containsCharList sub.data s.data

/-- Badge class for the gray (missing label) confidence bucket. -/
def grayBadgeClass : String := "bg-gray-500/20 text-gray-400 border-gray-500/30"

/-- Badge class for the amber (tight game) confidence bucket. -/
def amberBadgeClass : String := "bg-amber-500/20 text-amber-400 border-amber-500/30"

/-- Badge class for the green (solid) confidence bucket. -/
def greenBadgeClass : String := "bg-emerald-500/20 text-emerald-400 border-emerald-500/30"

/-- Badge class for the red (blowout) confidence bucket. -/
def redBadgeClass : String := "bg-red-500/20 text-red-400 border-red-500/30"

/-- Badge class for the blue (default) confidence bucket. -/
def blueBadgeClass : String := "bg-blue-500/20 text-blue-400 border-blue-500/30"

/-- `getConfidenceBadgeColor` (source lines 154-164).  `none` models a
`null`/`undefined` label; the empty string is falsy in JS, so it also takes
the gray branch.  Matching is by substring on the lowercased label. -/
def getConfidenceBadgeColor (level : Option String) : String :=
  match level with
  | none => grayBadgeClass
  | some s =>
    if s = "" then grayBadgeClass
    else if strIncludes (strToLower s) "indécis" || strIncludes (strToLower s) "tight" ||
        strIncludes (strToLower s) "serré" then amberBadgeClass
    else if strIncludes (strToLower s) "solid" || strIncludes (strToLower s) "solide" then
      greenBadgeClass
    else if strIncludes (strToLower s) "blowout" then redBadgeClass
    else blueBadgeClass

/-- Roster member (`Player` from the API service; only the fields this
component reads are modelled). -/
structure Player where
  id : ℤ
  full_name : String
deriving DecidableEq

/-- The `useState` fields of `MatchPredictionModal` (source lines 65-71). -/
structure MatchModalState where
  homeMissingPlayers : List Player
  awayMissingPlayers : List Player
  homeSearchQuery : String
  awaySearchQuery : String
  homePopoverOpen : Bool
  awayPopoverOpen : Bool
  failedLogos : List String
deriving DecidableEq

/-- Initial state on mount: empty selections, empty search, closed popovers. -/
def initialMatchModalState : MatchModalState := ⟨[], [], "", "", false, false, []⟩

/-- `addHomeMissingPlayer` (source lines 118-127): append unless the id is
already present; always clear the home search text and close the popover. -/
def addHomeMissingPlayer (s : MatchModalState) (player : Player) : MatchModalState :=
  let updated :=
    if (s.homeMissingPlayers.find? fun p => p.id == player.id).isNone then
      s.homeMissingPlayers ++ [player]
    else s.homeMissingPlayers
  { s with homeMissingPlayers := updated, homeSearchQuery := "", homePopoverOpen := false }

/-- `addAwayMissingPlayer` (source lines 129-138). -/
def addAwayMissingPlayer (s : MatchModalState) (player : Player) : MatchModalState :=
  let updated :=
    if (s.awayMissingPlayers.find? fun p => p.id == player.id).isNone then
      s.awayMissingPlayers ++ [player]
    else s.awayMissingPlayers
  { s with awayMissingPlayers := updated, awaySearchQuery := "", awayPopoverOpen := false }

/-- `removeHomeMissingPlayer` (source lines 140-145). -/
def removeHomeMissingPlayer (s : MatchModalState) (playerId : ℤ) : MatchModalState :=
  { s with homeMissingPlayers := s.homeMissingPlayers.filter fun p => p.id != playerId }

/-- `removeAwayMissingPlayer` (source lines 147-152). -/
def removeAwayMissingPlayer (s : MatchModalState) (playerId : ℤ) : MatchModalState :=
  { s with awayMissingPlayers := s.awayMissingPlayers.filter fun p => p.id != playerId }

/-- One user action on the absence selections. -/
inductive AbsenceOp where
  | addHome (p : Player)
  | addAway (p : Player)
  | removeHome (id : ℤ)
  | removeAway (id : ℤ)

/-- Apply one absence action to the modal state. -/
def applyAbsenceOp (s : MatchModalState) : AbsenceOp → MatchModalState
  | .addHome p => addHomeMissingPlayer s p
  | .addAway p => addAwayMissingPlayer s p
  | .removeHome i => removeHomeMissingPlayer s i
  | .removeAway i => removeAwayMissingPlayer s i

/-- Run a sequence of absence actions from the initial (mount) state. -/
def runAbsenceOps (ops : List AbsenceOp) : MatchModalState :=
  ops.foldl applyAbsenceOp initialMatchModalState

/-- JS `ids.join(",")` on a numeric array. -/
def idJoin (ids : List ℤ) : String := String.intercalate "," (ids.map toString)

/-- The `queryKey` of the match-prediction query (source lines 101-107):
the literal tag, the two team codes and the comma-joins of the two absence
id lists in insertion order. -/
def matchPredictionQueryKey (homeTeamId awayTeamId : String) (s : MatchModalState) :
    List String :=
  ["match-prediction", homeTeamId, awayTeamId,
    idJoin (s.homeMissingPlayers.map Player.id),
    idJoin (s.awayMissingPlayers.map Player.id)]

/-- Accumulate a decimal digit list into a natural number. -/
def digitsToNat (ds : List Char) : ℕ := ds.foldl (fun n c => 10 * n + (c.toNat - 48)) 0

/-- Scale factor contributed by an exponent suffix after the `e`/`E` in
`parseFloat`; an empty digit run means the exponent is not consumed
(factor 1). -/
def jsExpFactor (cs : List Char) : ℚ :=
  let signSplit : Bool × List Char :=
    match cs with
    | '-' :: t => (true, t)
    | '+' :: t => (false, t)
    | _ => (false, cs)
  let ds := signSplit.2.takeWhile Char.isDigit
  if ds.isEmpty then 1
  else if signSplit.1 then 1 / ((10 : ℚ) ^ digitsToNat ds)
  else (10 : ℚ) ^ digitsToNat ds

/-- Core of JS `parseFloat` after leading whitespace: optional sign, integer
digits, optional fraction digits, optional exponent; `none` when no digit of
the mantissa is found (JS `NaN`).  (The `Infinity` literal, which the calling
code never passes, is not modelled.) -/
def jsParseFloatCore (cs : List Char) : Option ℚ :=
  let signSplit : ℚ × List Char :=
    match cs with
    | '-' :: t => (-1, t)
    | '+' :: t => (1, t)
    | _ => (1, cs)
  let sign := signSplit.1
  let intDs := signSplit.2.takeWhile Char.isDigit
  let rest1 := signSplit.2.dropWhile Char.isDigit
  let fracSplit : List Char × List Char :=
    match rest1 with
    | '.' :: t => (t.takeWhile Char.isDigit, t.dropWhile Char.isDigit)
    | _ => ([], rest1)
  let fracDs := fracSplit.1
  let rest2 := fracSplit.2
  if intDs.isEmpty && fracDs.isEmpty then none
  else
    let mantissa : ℚ :=
      (digitsToNat intDs : ℚ) + (digitsToNat fracDs : ℚ) / ((10 : ℚ) ^ fracDs.length)
    let factor : ℚ :=
      match rest2 with
      | 'e' :: t => jsExpFactor t
      | 'E' :: t => jsExpFactor t
      | _ => 1
    some (sign * mantissa * factor)

/-- JS `parseFloat(s)`, returning `none` for `NaN`. -/
def jsParseFloat (s : String) : Option ℚ :=
  jsParseFloatCore
    (s.data.dropWhile fun c => c == ' ' || c == '\t' || c == '\n' || c == '\r')

/-- The four selectable stat categories of the player-details modal. -/
inductive StatCategory where
  | PTS
  | REB
  | AST
  | PRA
deriving DecidableEq

/-- Per-game predicted stats of a player.  `MIN` is rendered unconditionally;
`PTS`/`REB`/`AST` are read through `|| 0`, so possible absence is modelled
by `Option`. -/
structure PredictedStats where
  MIN : ℚ
  PTS : Option ℚ
  REB : Option ℚ
  AST : Option ℚ
deriving DecidableEq

/-- Derived advanced metrics: the combined points+rebounds+assists figure. -/
structure AdvancedMetrics where
  PRA : ℚ
deriving DecidableEq

/-- `PlayerFullPrediction` (API service type; the fields this component
reads). -/
structure PlayerFullPrediction where
  player_id : ℤ
  player : String
  team : String
  predicted_stats : PredictedStats
  advanced_metrics_projected : AdvancedMetrics
deriving DecidableEq

/-- JS `x || 0` on an optional numeric field: `0` when the field is absent
or its value is falsy (i.e. `0`). -/
def jsOrZero (x : Option ℚ) : ℚ :=
  match x with
  | none => 0
  | some v => if v = 0 then 0 else v

/-- `getProjectionValue` (source lines 968-974). -/
def getProjectionValue (p : PlayerFullPrediction) (stat : StatCategory) : ℚ :=
  match stat with
  | .PRA => p.advanced_metrics_projected.PRA
  | .PTS => jsOrZero p.predicted_stats.PTS
  | .REB => jsOrZero p.predicted_stats.REB
  | .AST => jsOrZero p.predicted_stats.AST

/-- The `useState` fields of `PlayerDetailsModal` (source lines 984-986). -/
structure DetailsState where
  selectedStat : StatCategory
  bookmakerLine : String
  calculatorOpen : Bool
deriving DecidableEq

/-- The `disabled` predicate of the Analyze button (source line 1389):
`!bookmakerLine || parseFloat(bookmakerLine) <= 0`.  A `NaN` comparison is
false in JS, hence the `none` branch yields `false`. -/
def analyzeDisabled (line : String) : Bool :=
  line == "" ||
    match jsParseFloat line with
    | none => false
    | some v => decide (v ≤ 0)

/-- The guard of `handleAnalyze` (source line 1016):
`bookmakerLine && parseFloat(bookmakerLine) > 0`. -/
def analyzeGuard (line : String) : Bool :=
  line != "" &&
    match jsParseFloat line with
    | none => false
    | some v => decide (0 < v)

/-- `handleAnalyze` (source lines 1015-1020): when the guard holds, issue the
calculator fetch (the returned flag) and open the result panel. -/
def handleAnalyze (s : DetailsState) : DetailsState × Bool :=
  if analyzeGuard s.bookmakerLine then ({ s with calculatorOpen := true }, true)
  else (s, false)

/-- `handleStatChange` (source lines 1022-1025): select the new category and
close the calculator panel. -/
def handleStatChange (s : DetailsState) (v : StatCategory) : DetailsState :=
  { s with selectedStat := v, calculatorOpen := false }

/-- Recommendation panel class for the emerald styling. -/
def recEmeraldClass : String := "bg-emerald-500/20 border-emerald-500/30 text-emerald-200"

/-- Recommendation panel class for the red styling. -/
def recRedClass : String := "bg-red-500/20 border-red-500/30 text-red-200"

/-- Recommendation panel class for the amber styling. -/
def recAmberClass : String := "bg-amber-500/20 border-amber-500/30 text-amber-200"

/-- Recommendation panel class for the neutral slate styling. -/
def recSlateClass : String := "bg-slate-800/30 border-slate-700/50 text-slate-200"

/-- The advice-text branch of `getRecommendationColor` (source lines
1061-1066): runs only when no color code is present. -/
def getRecommendationAdviceColor (advice : Option String) : String :=
  match advice with
  | none => recSlateClass
  | some a =>
    if a = "" then recSlateClass
    else
      let upper := strToUpper a
      if strIncludes upper "OVER" then recEmeraldClass
      else if strIncludes upper "UNDER" then recRedClass
      else recAmberClass

/-- `getRecommendationColor` (source lines 1046-1067): a truthy color code is
switched on case-insensitively (its `default` branch is the neutral slate
class); otherwise the advice text is inspected. -/
def getRecommendationColor (advice colorCode : Option String) : String :=
  match colorCode with
  | some code =>
    if code = "" then getRecommendationAdviceColor advice
    else
      let lower := strToLower code
      if lower = "green" then recEmeraldClass
      else if lower = "red" then recRedClass
      else if lower = "amber" ∨ lower = "yellow" then recAmberClass
      else recSlateClass
  | none => getRecommendationAdviceColor advice

/-- One row of averaged stats (recent form, head-to-head or split). -/
structure StatAvg where
  GP : ℚ
  PTS : ℚ
  REB : ℚ
  AST : ℚ
  PRA : ℚ
  PA : ℚ
  PR : ℚ
  STL : ℚ
  BLK : ℚ
deriving DecidableEq

/-- What the head-to-head tab renders. -/
inductive H2HTabView where
  | loading
  | stats (avg : StatAvg)
  | placeholder
deriving DecidableEq

/-- The head-to-head `TabsContent` (source lines 1296-1322): a spinner while
loading, the stat grid when `h2hAverage && h2hAverage.GP > 0`, else the
"No head-to-head history" placeholder. -/
def h2hTabView (historyLoading : Bool) (h2hAvg : Option StatAvg) : H2HTabView :=
  if historyLoading then .loading
  else
    match h2hAvg with
    | some avg => if 0 < avg.GP then .stats avg else .placeholder
    | none => .placeholder

/-! ### Helper lemmas -/

/-- `x || 0` on an optional rational is `Option.getD` at default `0`. -/
theorem jsOrZero_eq_getD (x : Option ℚ) : jsOrZero x = x.getD 0 := by
  cases x with
  | none => rfl
  | some v =>
    by_cases h : v = 0
    · simp [jsOrZero, h]
    · simp [jsOrZero, h]

/-! ### Section: absence-list helper lemmas -/

/-- A present id makes the `find?` guard of the add handlers succeed. -/
theorem find_id_ne_none {l : List Player} {p : Player}
    (h : ∃ q ∈ l, q.id = p.id) : (l.find? fun x => x.id == p.id) ≠ none := by
  obtain ⟨q, hq, hid⟩ := h
  intro hn
  rw [List.find?_eq_none] at hn
  exact (hn q hq) (by simpa using hid)

/-- An absent id makes the `find?` guard of the add handlers fail. -/
theorem find_id_eq_none {l : List Player} {p : Player}
    (h : ∀ q ∈ l, q.id ≠ p.id) : (l.find? fun x => x.id == p.id) = none := by
  rw [List.find?_eq_none]
  intro q hq
  simpa using h q hq

/-- Appending a player with a fresh id preserves distinctness of the ids. -/
theorem nodup_ids_append {l : List Player} {p : Player}
    (hl : (l.map Player.id).Nodup) (hp : ∀ q ∈ l, q.id ≠ p.id) :
    (((l ++ [p]).map Player.id)).Nodup := by
  rw [List.map_append, List.nodup_append]
  refine ⟨hl, List.nodup_singleton _, ?_⟩
  intro a ha hb
  simp only [List.map_cons, List.map_nil, List.mem_singleton] at hb
  obtain ⟨q, hq, rfl⟩ := List.mem_map.mp ha
  exact hp q hq hb

/-- Filtering preserves distinctness of the ids. -/
theorem nodup_ids_filter {l : List Player} (f : Player → Bool)
    (hl : (l.map Player.id).Nodup) : ((l.filter f).map Player.id).Nodup :=
  hl.sublist (List.Sublist.map Player.id (List.filter_sublist l))

/-- Both absence lists have pairwise-distinct player ids. -/
def absenceInvariant (s : MatchModalState) : Prop :=
  (s.homeMissingPlayers.map Player.id).Nodup ∧ (s.awayMissingPlayers.map Player.id).Nodup

/-- Every absence action preserves id-distinctness of both lists. -/
theorem absenceInvariant_applyOp {s : MatchModalState} (h : absenceInvariant s)
    (op : AbsenceOp) : absenceInvariant (applyAbsenceOp s op) := by
  obtain ⟨hh, ha⟩ := h
  cases op with
  | addHome p =>
    by_cases hp : ∀ q ∈ s.homeMissingPlayers, q.id ≠ p.id
    · refine ⟨?_, ha⟩
      simp only [applyAbsenceOp, addHomeMissingPlayer, find_id_eq_none hp, Option.isNone_none,
        if_pos]
      exact nodup_ids_append hh hp
    · push_neg at hp
      obtain ⟨q, hq, hid⟩ := hp
      refine ⟨?_, ha⟩
      have hne := find_id_ne_none ⟨q, hq, hid⟩
      have hfalse : (s.homeMissingPlayers.find? fun x => x.id == p.id).isNone = false := by
        simpa [Option.isNone_iff_eq_none] using hne
      simpa [applyAbsenceOp, addHomeMissingPlayer, hfalse] using hh
  | addAway p =>
    by_cases hp : ∀ q ∈ s.awayMissingPlayers, q.id ≠ p.id
    · refine ⟨hh, ?_⟩
      simp only [applyAbsenceOp, addAwayMissingPlayer, find_id_eq_none hp, Option.isNone_none,
        if_pos]
      exact nodup_ids_append ha hp
    · push_neg at hp
      obtain ⟨q, hq, hid⟩ := hp
      refine ⟨hh, ?_⟩
      have hne := find_id_ne_none ⟨q, hq, hid⟩
      have hfalse : (s.awayMissingPlayers.find? fun x => x.id == p.id).isNone = false := by
        simpa [Option.isNone_iff_eq_none] using hne
      simpa [applyAbsenceOp, addAwayMissingPlayer, hfalse] using ha
  | removeHome i =>
    exact ⟨nodup_ids_filter _ hh, ha⟩
  | removeAway i =>
    exact ⟨hh, nodup_ids_filter _ ha⟩

/-- The invariant holds after any action sequence from the mount state. -/
theorem absenceInvariant_run (ops : List AbsenceOp) : absenceInvariant (runAbsenceOps ops) := by
  have step : ∀ l : List AbsenceOp, ∀ s : MatchModalState, absenceInvariant s →
      absenceInvariant (l.foldl applyAbsenceOp s) := by
    intro l
    induction l with
    | nil => intro s h; exact h
    | cons op t ih => intro s h; exact ih _ (absenceInvariant_applyOp h op)
  exact step ops initialMatchModalState ⟨List.nodup_nil, List.nodup_nil⟩

/-- Adding an already-present id leaves the home list unchanged. -/
theorem addHome_present_list {s : MatchModalState} {p : Player}
    (h : ∃ q ∈ s.homeMissingPlayers, q.id = p.id) :
    (addHomeMissingPlayer s p).homeMissingPlayers = s.homeMissingPlayers := by
  have hfalse : (s.homeMissingPlayers.find? fun x => x.id == p.id).isNone = false := by
    simpa [Option.isNone_iff_eq_none] using find_id_ne_none h
  simp [addHomeMissingPlayer, hfalse]

/-- Adding a fresh id appends it to the home list. -/
theorem addHome_fresh_list {s : MatchModalState} {p : Player}
    (h : ∀ q ∈ s.homeMissingPlayers, q.id ≠ p.id) :
    (addHomeMissingPlayer s p).homeMissingPlayers = s.homeMissingPlayers ++ [p] := by
  simp [addHomeMissingPlayer, find_id_eq_none h]

/-- Adding an already-present id leaves the away list unchanged. -/
theorem addAway_present_list {s : MatchModalState} {p : Player}
    (h : ∃ q ∈ s.awayMissingPlayers, q.id = p.id) :
    (addAwayMissingPlayer s p).awayMissingPlayers = s.awayMissingPlayers := by
  have hfalse : (s.awayMissingPlayers.find? fun x => x.id == p.id).isNone = false := by
    simpa [Option.isNone_iff_eq_none] using find_id_ne_none h
  simp [addAwayMissingPlayer, hfalse]

/-- Adding a fresh id appends it to the away list. -/
theorem addAway_fresh_list {s : MatchModalState} {p : Player}
    (h : ∀ q ∈ s.awayMissingPlayers, q.id ≠ p.id) :
    (addAwayMissingPlayer s p).awayMissingPlayers = s.awayMissingPlayers ++ [p] := by
  simp [addAwayMissingPlayer, find_id_eq_none h]

/-! ### Claim theorems -/

/-- C5: after any sequence of add-absent-player and remove-absent-player
actions from the mount state, each side's absence list has pairwise-distinct
player ids; adding a player whose id is already present leaves the list
unchanged, and adding a player with a fresh id appends it. -/
theorem absence_list_no_duplicates (ops : List AbsenceOp) (s : MatchModalState) (p : Player) :
    ((runAbsenceOps ops).homeMissingPlayers.map Player.id).Nodup ∧
    ((runAbsenceOps ops).awayMissingPlayers.map Player.id).Nodup ∧
    ((∃ q ∈ s.homeMissingPlayers, q.id = p.id) →
      (addHomeMissingPlayer s p).homeMissingPlayers = s.homeMissingPlayers) ∧
    ((∀ q ∈ s.homeMissingPlayers, q.id ≠ p.id) →
      (addHomeMissingPlayer s p).homeMissingPlayers = s.homeMissingPlayers ++ [p]) ∧
    ((∃ q ∈ s.awayMissingPlayers, q.id = p.id) →
      (addAwayMissingPlayer s p).awayMissingPlayers = s.awayMissingPlayers) ∧
    ((∀ q ∈ s.awayMissingPlayers, q.id ≠ p.id) →
      (addAwayMissingPlayer s p).awayMissingPlayers = s.awayMissingPlayers ++ [p]) :=
  ⟨(absenceInvariant_run ops).1, (absenceInvariant_run ops).2,
    fun h => addHome_present_list h, fun h => addHome_fresh_list h,
    fun h => addAway_present_list h, fun h => addAway_fresh_list h⟩

/-- Witness for C5 at a concrete run: repeated adds of id 1 leave a
one-element home list, and a fresh add appends. -/
theorem absence_list_no_duplicates_witness :
    ((runAbsenceOps [AbsenceOp.addHome ⟨1, "LeBron James"⟩,
        AbsenceOp.addHome ⟨1, "LeBron James"⟩]).homeMissingPlayers.map Player.id).Nodup ∧
    (addHomeMissingPlayer
        { initialMatchModalState with homeMissingPlayers := [⟨1, "LeBron James"⟩] }
        ⟨1, "LeBron James"⟩).homeMissingPlayers = [⟨1, "LeBron James"⟩] ∧
    (addAwayMissingPlayer initialMatchModalState ⟨2, "Jayson Tatum"⟩).awayMissingPlayers =
      [⟨2, "Jayson Tatum"⟩] := by
  refine ⟨(absence_list_no_duplicates [AbsenceOp.addHome ⟨1, "LeBron James"⟩,
      AbsenceOp.addHome ⟨1, "LeBron James"⟩] initialMatchModalState ⟨1, "LeBron James"⟩).1,
    ?_, ?_⟩
  · exact (absence_list_no_duplicates []
        { initialMatchModalState with homeMissingPlayers := [⟨1, "LeBron James"⟩] }
        ⟨1, "LeBron James"⟩).2.2.1 ⟨⟨1, "LeBron James"⟩, by simp, rfl⟩
  · exact (absence_list_no_duplicates [] initialMatchModalState
        ⟨2, "Jayson Tatum"⟩).2.2.2.2.2 (by simp [initialMatchModalState])

/-- C6: adding a player whose id is already in a side's absence set changes
nothing in the component state except clearing that side's search text and
closing that side's popover; in particular the absence lists, the other
side's fields and the failed-logo set are untouched. -/
theorem add_present_player_frame (s : MatchModalState) (p : Player) :
    ((∃ q ∈ s.homeMissingPlayers, q.id = p.id) →
      addHomeMissingPlayer s p =
        { s with homeSearchQuery := "", homePopoverOpen := false }) ∧
    ((∃ q ∈ s.awayMissingPlayers, q.id = p.id) →
      addAwayMissingPlayer s p =
        { s with awaySearchQuery := "", awayPopoverOpen := false }) := by
  constructor
  · intro h
    have hl := addHome_present_list h
    cases s
    simp only [addHomeMissingPlayer] at hl ⊢
    simp_all
  · intro h
    have hl := addAway_present_list h
    cases s
    simp only [addAwayMissingPlayer] at hl ⊢
    simp_all

/-- Witness for C6: re-adding the only selected home player merely clears
the search text and closes the popover. -/
theorem add_present_player_frame_witness :
    addHomeMissingPlayer
        { homeMissingPlayers := [⟨1, "LeBron James"⟩], awayMissingPlayers := [],
          homeSearchQuery := "leb", awaySearchQuery := "jt", homePopoverOpen := true,
          awayPopoverOpen := true, failedLogos := ["home-0042300001"] }
        ⟨1, "LeBron James"⟩ =
      { homeMissingPlayers := [⟨1, "LeBron James"⟩], awayMissingPlayers := [],
        homeSearchQuery := "", awaySearchQuery := "jt", homePopoverOpen := false,
        awayPopoverOpen := true, failedLogos := ["home-0042300001"] } :=
  (add_present_player_frame
      { homeMissingPlayers := [⟨1, "LeBron James"⟩], awayMissingPlayers := [],
        homeSearchQuery := "leb", awaySearchQuery := "jt", homePopoverOpen := true,
        awayPopoverOpen := true, failedLogos := ["home-0042300001"] }
      ⟨1, "LeBron James"⟩).1 ⟨⟨1, "LeBron James"⟩, by simp, rfl⟩

/-- C8: selecting a new stat category installs that category, closes the
calculator result panel, and leaves the entered line untouched. -/
theorem stat_change_closes_calculator (s : DetailsState) (v : StatCategory) :
    (handleStatChange s v).selectedStat = v ∧
    (handleStatChange s v).calculatorOpen = false ∧
    (handleStatChange s v).bookmakerLine = s.bookmakerLine :=
  ⟨rfl, rfl, rfl⟩

/-- C9: the head-to-head tab shows the stat grid exactly when the fetched
head-to-head average has games-played strictly greater than 0; with GP = 0
it shows the "No head-to-head history" placeholder whatever the other stat
fields hold, and so does a missing record. -/
theorem h2h_tab_requires_games_played (avg : StatAvg) :
    (h2hTabView false (some avg) = H2HTabView.stats avg ↔ 0 < avg.GP) ∧
    (avg.GP = 0 → h2hTabView false (some avg) = H2HTabView.placeholder) ∧
    h2hTabView false none = H2HTabView.placeholder := by
  refine ⟨⟨?_, ?_⟩, ?_, rfl⟩
  · intro h
    by_contra hc
    simp [h2hTabView, hc] at h
  · intro h
    simp [h2hTabView, h]
  · intro h
    simp [h2hTabView, h]

/-- Witness for C9: a record with GP = 0 but non-trivial stat fields still
renders the placeholder, and one with GP = 3 renders the stats. -/
theorem h2h_tab_requires_games_played_witness :
    h2hTabView false (some ⟨0, 25, 8, 7, 40, 32, 33, 1, 1⟩) = H2HTabView.placeholder ∧
    h2hTabView false (some ⟨3, 25, 8, 7, 40, 32, 33, 1, 1⟩) =
      H2HTabView.stats ⟨3, 25, 8, 7, 40, 32, 33, 1, 1⟩ :=
  ⟨(h2h_tab_requires_games_played ⟨0, 25, 8, 7, 40, 32, 33, 1, 1⟩).2.1 rfl,
    (h2h_tab_requires_games_played ⟨3, 25, 8, 7, 40, 32, 33, 1, 1⟩).1.mpr (by norm_num)⟩

/-- C10: `getProjectionValue` is total over the four categories: PRA reads
the combined advanced-metrics figure, and PTS/REB/AST read the predicted
field with a fallback to 0 when the field is absent (never an undefined
value). -/
theorem projection_value_total (p : PlayerFullPrediction) :
    getProjectionValue p StatCategory.PRA = p.advanced_metrics_projected.PRA ∧
    getProjectionValue p StatCategory.PTS = p.predicted_stats.PTS.getD 0 ∧
    getProjectionValue p StatCategory.REB = p.predicted_stats.REB.getD 0 ∧
    getProjectionValue p StatCategory.AST = p.predicted_stats.AST.getD 0 :=
  ⟨rfl, jsOrZero_eq_getD _, jsOrZero_eq_getD _, jsOrZero_eq_getD _⟩

/-- C7: the recommendation styling prefers a present (non-empty) color code,
matched case-insensitively — `green` gives the emerald class, `red` the red
class, `amber`/`yellow` the amber class — and the advice text then plays no
role at all; with no color code the advice text is inspected for the
substrings "OVER" (emerald) then "UNDER" (red), case-insensitively; in every
remaining case the styling is the neutral slate or amber class. -/
theorem recommendation_color_spec :
    (∀ a₁ a₂ : Option String, ∀ code : String, code ≠ "" →
      getRecommendationColor a₁ (some code) = getRecommendationColor a₂ (some code)) ∧
    (∀ a : Option String, ∀ code : String, strToLower code = "green" →
      getRecommendationColor a (some code) = recEmeraldClass) ∧
    (∀ a : Option String, ∀ code : String, strToLower code = "red" →
      getRecommendationColor a (some code) = recRedClass) ∧
    (∀ a : Option String, ∀ code : String,
      strToLower code = "amber" ∨ strToLower code = "yellow" →
      getRecommendationColor a (some code) = recAmberClass) ∧
    (∀ a : String, strIncludes (strToUpper a) "OVER" = true →
      getRecommendationColor (some a) none = recEmeraldClass) ∧
    (∀ a : String, a ≠ "" → strIncludes (strToUpper a) "OVER" = false →
      strIncludes (strToUpper a) "UNDER" = true →
      getRecommendationColor (some a) none = recRedClass) ∧
    (∀ a : String, a ≠ "" → strIncludes (strToUpper a) "OVER" = false →
      strIncludes (strToUpper a) "UNDER" = false →
      getRecommendationColor (some a) none = recAmberClass) ∧
    getRecommendationColor none none = recSlateClass := by
  have hne : ∀ code : String, strToLower code = "green" ∨ strToLower code = "red" ∨
      strToLower code = "amber" ∨ strToLower code = "yellow" → code ≠ "" := by
    rintro code (h | h | h | h) rfl <;> simp [strToLower] at h
  refine ⟨?_, ?_, ?_, ?_, ?_, ?_, ?_, rfl⟩
  · intro a₁ a₂ code hcode
    simp [getRecommendationColor, hcode]
  · intro a code h
    have hcode := hne code (Or.inl h)
    simp [getRecommendationColor, hcode, h]
  · intro a code h
    have hcode := hne code (Or.inr (Or.inl h))
    simp [getRecommendationColor, hcode, h]
  · intro a code h
    have hcode := hne code (Or.inr (Or.inr h))
    rcases h with h | h <;> simp [getRecommendationColor, hcode, h]
  · intro a h
    have ha : a ≠ "" := by
      rintro rfl
      simp [strToUpper, strIncludes, containsCharList, isPrefixCharList] at h
    simp [getRecommendationColor, getRecommendationAdviceColor, ha, h]
  · intro a ha h1 h2
    simp [getRecommendationColor, getRecommendationAdviceColor, ha, h1, h2]
  · intro a ha h1 h2
    simp [getRecommendationColor, getRecommendationAdviceColor, ha, h1, h2]

/-- Witness for C7 (spec scenario 5): color code `"green"` forces the
emerald styling although the advice text says UNDER, also when the code is
written `"Green"`; without a code the same advice text styles red. -/
theorem recommendation_color_spec_witness :
    getRecommendationColor (some "STRONG UNDER") (some "green") = recEmeraldClass ∧
    getRecommendationColor (some "STRONG UNDER") (some "Green") = recEmeraldClass ∧
    getRecommendationColor (some "STRONG UNDER") none = recRedClass :=
  ⟨recommendation_color_spec.2.1 (some "STRONG UNDER") "green" (by decide),
    recommendation_color_spec.2.1 (some "STRONG UNDER") "Green" (by decide),
    recommendation_color_spec.2.2.2.2.2.1 "STRONG UNDER" (by decide) (by decide) (by decide)⟩

/-- C2 counterexample: natural French synonyms for a blowout — `raclée`,
`écrasement`, `déroute` — all classify to the default blue bucket, not to
the red (blowout) bucket, and `contested` is not in the amber vocabulary
either: the red bucket recognises no non-English keyword. -/
theorem confidence_badge_counterexample :
    getConfidenceBadgeColor (some "raclée") = blueBadgeClass ∧
    getConfidenceBadgeColor (some "écrasement") = blueBadgeClass ∧
    getConfidenceBadgeColor (some "déroute") = blueBadgeClass ∧
    getConfidenceBadgeColor (some "contested") = blueBadgeClass := by
  refine ⟨?_, ?_, ?_, ?_⟩ <;> decide

/-- C2 amended: the buckets are decided by case-insensitive substring
matching — two labels with the same lowercasing classify identically, and
`Blowout`, `BLOWOUT`, `blowout risk` all land in the red bucket; the amber
and green buckets each contain French keywords (`indécis`/`serré`,
`solide`), but a label lands in the red bucket only when its lowercasing
contains the single English keyword `blowout` (and amber/green only via
their listed keywords). -/
theorem confidence_badge_amended :
    (getConfidenceBadgeColor (some "Blowout") = redBadgeClass ∧
      getConfidenceBadgeColor (some "BLOWOUT") = redBadgeClass ∧
      getConfidenceBadgeColor (some "blowout risk") = redBadgeClass) ∧
    (∀ s t : String, strToLower s = strToLower t → s ≠ "" → t ≠ "" →
      getConfidenceBadgeColor (some s) = getConfidenceBadgeColor (some t)) ∧
    (∀ s : String, getConfidenceBadgeColor (some s) = redBadgeClass →
      strIncludes (strToLower s) "blowout" = true) ∧
    (∀ s : String, getConfidenceBadgeColor (some s) = amberBadgeClass →
      strIncludes (strToLower s) "indécis" = true ∨
      strIncludes (strToLower s) "tight" = true ∨
      strIncludes (strToLower s) "serré" = true) ∧
    (∀ s : String, getConfidenceBadgeColor (some s) = greenBadgeClass →
      strIncludes (strToLower s) "solid" = true ∨
      strIncludes (strToLower s) "solide" = true) ∧
    (getConfidenceBadgeColor (some "indécis") = amberBadgeClass ∧
      getConfidenceBadgeColor (some "serré") = amberBadgeClass ∧
      getConfidenceBadgeColor (some "solide") = greenBadgeClass) := by
  refine ⟨by refine ⟨?_, ?_, ?_⟩ <;> decide, ?_, ?_, ?_, ?_,
    by refine ⟨?_, ?_, ?_⟩ <;> decide⟩
  · intro s t hst hs ht
    simp only [getConfidenceBadgeColor, if_neg hs, if_neg ht, hst]
  · intro s h
    by_cases h0 : s = ""
    · rw [h0] at h
      exact absurd h (by decide)
    by_cases h1 : (strIncludes (strToLower s) "indécis" || strIncludes (strToLower s) "tight" ||
        strIncludes (strToLower s) "serré") = true
    · simp only [getConfidenceBadgeColor, if_neg h0, if_pos h1] at h
      exact absurd h (by decide)
    by_cases h2 : (strIncludes (strToLower s) "solid" ||
        strIncludes (strToLower s) "solide") = true
    · simp only [getConfidenceBadgeColor, if_neg h0, if_neg h1, if_pos h2] at h
      exact absurd h (by decide)
    by_cases h3 : strIncludes (strToLower s) "blowout" = true
    · exact h3
    · simp only [getConfidenceBadgeColor, if_neg h0, if_neg h1, if_neg h2, if_neg h3] at h
      exact absurd h (by decide)
  · intro s h
    by_cases h0 : s = ""
    · rw [h0] at h
      exact absurd h (by decide)
    by_cases h1 : (strIncludes (strToLower s) "indécis" || strIncludes (strToLower s) "tight" ||
        strIncludes (strToLower s) "serré") = true
    · rcases Bool.or_eq_true_iff.mp h1 with h1a | h1b
      · rcases Bool.or_eq_true_iff.mp h1a with h1c | h1d
        · exact Or.inl h1c
        · exact Or.inr (Or.inl h1d)
      · exact Or.inr (Or.inr h1b)
    by_cases h2 : (strIncludes (strToLower s) "solid" ||
        strIncludes (strToLower s) "solide") = true
    · simp only [getConfidenceBadgeColor, if_neg h0, if_neg h1, if_pos h2] at h
      exact absurd h (by decide)
    by_cases h3 : strIncludes (strToLower s) "blowout" = true
    · simp only [getConfidenceBadgeColor, if_neg h0, if_neg h1, if_neg h2, if_pos h3] at h
      exact absurd h (by decide)
    · simp only [getConfidenceBadgeColor, if_neg h0, if_neg h1, if_neg h2, if_neg h3] at h
      exact absurd h (by decide)
  · intro s h
    by_cases h0 : s = ""
    · rw [h0] at h
      exact absurd h (by decide)
    by_cases h1 : (strIncludes (strToLower s) "indécis" || strIncludes (strToLower s) "tight" ||
        strIncludes (strToLower s) "serré") = true
    · simp only [getConfidenceBadgeColor, if_neg h0, if_pos h1] at h
      exact absurd h (by decide)
    by_cases h2 : (strIncludes (strToLower s) "solid" ||
        strIncludes (strToLower s) "solide") = true
    · exact Bool.or_eq_true_iff.mp h2
    by_cases h3 : strIncludes (strToLower s) "blowout" = true
    · simp only [getConfidenceBadgeColor, if_neg h0, if_neg h1, if_neg h2, if_pos h3] at h
      exact absurd h (by decide)
    · simp only [getConfidenceBadgeColor, if_neg h0, if_neg h1, if_neg h2, if_neg h3] at h
      exact absurd h (by decide)

/-- Witness for C2 amended: `Blowout` and `BLOWOUT` have the same
lowercasing, so the case-insensitivity clause applies to them. -/
theorem confidence_badge_amended_witness :
    getConfidenceBadgeColor (some "Blowout") = getConfidenceBadgeColor (some "BLOWOUT") :=
  confidence_badge_amended.2.1 "Blowout" "BLOWOUT" (by decide) (by decide) (by decide)

/-- C3 counterexample: adding the same two players in opposite orders gives
the same absence set (the lists are permutations of one another) but
different query keys — the home id-join component is `"1,2"` in one order
and `"2,1"` in the other. -/
theorem query_key_counterexample :
    List.Perm
      (runAbsenceOps [AbsenceOp.addHome ⟨1, "LeBron James"⟩,
        AbsenceOp.addHome ⟨2, "Anthony Davis"⟩]).homeMissingPlayers
      (runAbsenceOps [AbsenceOp.addHome ⟨2, "Anthony Davis"⟩,
        AbsenceOp.addHome ⟨1, "LeBron James"⟩]).homeMissingPlayers ∧
    matchPredictionQueryKey "LAL" "BOS"
        (runAbsenceOps [AbsenceOp.addHome ⟨1, "LeBron James"⟩,
          AbsenceOp.addHome ⟨2, "Anthony Davis"⟩]) ≠
      matchPredictionQueryKey "LAL" "BOS"
        (runAbsenceOps [AbsenceOp.addHome ⟨2, "Anthony Davis"⟩,
          AbsenceOp.addHome ⟨1, "LeBron James"⟩]) := by
  constructor
  · show List.Perm [(⟨1, "LeBron James"⟩ : Player), ⟨2, "Anthony Davis"⟩]
      [(⟨2, "Anthony Davis"⟩ : Player), ⟨1, "LeBron James"⟩]
    exact List.Perm.swap _ _ []
  · decide

/-- C3 amended: the match-prediction query key is determined by the id
sequences in insertion order — two states whose absence lists carry the
same id sequences produce the same key — and in the empty-selection state
both id-join components are the empty string. -/
theorem query_key_amended (h a : String) (s₁ s₂ : MatchModalState)
    (hh : s₁.homeMissingPlayers.map Player.id = s₂.homeMissingPlayers.map Player.id)
    (ha : s₁.awayMissingPlayers.map Player.id = s₂.awayMissingPlayers.map Player.id) :
    matchPredictionQueryKey h a s₁ = matchPredictionQueryKey h a s₂ ∧
    matchPredictionQueryKey h a initialMatchModalState =
      ["match-prediction", h, a, "", ""] := by
  constructor
  · simp [matchPredictionQueryKey, idJoin, hh, ha]
  · rfl

/-- Witness for C3 amended: after an add followed by the matching remove the
key coincides with the empty-selection key, whose id-join components are
empty strings. -/
theorem query_key_amended_witness :
    matchPredictionQueryKey "LAL" "BOS"
        (runAbsenceOps [AbsenceOp.addHome ⟨1, "LeBron James"⟩, AbsenceOp.removeHome 1]) =
      matchPredictionQueryKey "LAL" "BOS" initialMatchModalState ∧
    matchPredictionQueryKey "LAL" "BOS" initialMatchModalState =
      ["match-prediction", "LAL", "BOS", "", ""] :=
  query_key_amended "LAL" "BOS"
    (runAbsenceOps [AbsenceOp.addHome ⟨1, "LeBron James"⟩, AbsenceOp.removeHome 1])
    initialMatchModalState (by decide) (by decide)

/-- `parseFloat` of the empty entry is `NaN`. -/
theorem jsParseFloat_empty : jsParseFloat "" = none := rfl

/-- `parseFloat("22.5")` is `45/2`. -/
theorem jsParseFloat_225 : jsParseFloat "22.5" = some (45/2) := by
  rw [show jsParseFloat "22.5"
      = some (1 * (((22 : ℕ) : ℚ) + ((5 : ℕ) : ℚ) / (10 : ℚ) ^ 1) * 1) from rfl]
  norm_num

/-- `parseFloat("-5")` is `-5`. -/
theorem jsParseFloat_neg5 : jsParseFloat "-5" = some (-5) := by
  rw [show jsParseFloat "-5"
      = some (-1 * (((5 : ℕ) : ℚ) + ((0 : ℕ) : ℚ) / (10 : ℚ) ^ 0) * 1) from rfl]
  norm_num

/-- C4 counterexample: the entered line `"abc"` does not parse to a number
(`parseFloat` is NaN), yet the disabled predicate is false — the Analyze
button is enabled for a non-numeric entry because `NaN <= 0` is false. -/
theorem analyze_enabled_counterexample :
    jsParseFloat "abc" = none ∧ analyzeDisabled "abc" = false :=
  ⟨rfl, rfl⟩

/-- C4 amended: the Analyze action is disabled exactly when the entered line
is empty or parses to a non-positive number — a non-empty non-numeric line
leaves the button enabled — while invoking Analyze issues the calculator
fetch and opens the result panel exactly when the line parses to a positive
number, and otherwise changes nothing and fetches nothing. -/
theorem analyze_action_amended :
    (∀ line : String, analyzeDisabled line = true ↔
      (line = "" ∨ ∃ v : ℚ, jsParseFloat line = some v ∧ v ≤ 0)) ∧
    (∀ s : DetailsState, ∀ v : ℚ, jsParseFloat s.bookmakerLine = some v → 0 < v →
      handleAnalyze s = ({ s with calculatorOpen := true }, true)) ∧
    (∀ s : DetailsState, jsParseFloat s.bookmakerLine = none →
      handleAnalyze s = (s, false)) ∧
    (∀ s : DetailsState, ∀ v : ℚ, jsParseFloat s.bookmakerLine = some v → v ≤ 0 →
      handleAnalyze s = (s, false)) := by
  refine ⟨?_, ?_, ?_, ?_⟩
  · intro line
    cases hp : jsParseFloat line with
    | none => simp [analyzeDisabled, hp]
    | some v => simp [analyzeDisabled, hp]
  · intro s v hp hv
    have hline : s.bookmakerLine ≠ "" := by
      intro h0
      rw [h0, jsParseFloat_empty] at hp
      exact Option.noConfusion hp
    simp [handleAnalyze, analyzeGuard, hp, hline, hv]
  · intro s hp
    simp [handleAnalyze, analyzeGuard, hp]
  · intro s v hp hv
    simp [handleAnalyze, analyzeGuard, hp, not_lt.mpr hv]

/-- Witness for C4 amended: `"-5"` keeps the button disabled (spec scenario
4) and `"22.5"` makes Analyze fetch and open the panel. -/
theorem analyze_action_amended_witness :
    analyzeDisabled "-5" = true ∧
    handleAnalyze ⟨StatCategory.PTS, "22.5", false⟩ =
      ((⟨StatCategory.PTS, "22.5", true⟩ : DetailsState), true) :=
  ⟨(analyze_action_amended.1 "-5").mpr
      (Or.inr ⟨-5, jsParseFloat_neg5, by norm_num⟩),
    analyze_action_amended.2.1 ⟨StatCategory.PTS, "22.5", false⟩ (45/2)
      jsParseFloat_225 (by norm_num)⟩

/-- `toFixed(0)` of a value and of its complement to 100 sum to 100, except
at exact half-integers (where both ties round up). -/
theorem jsRound_add_complement (raw : ℚ) (hf : Int.fract raw ≠ 1/2) :
    jsRound raw + jsRound (100 - raw) = 100 := by
  have hle : (0 : ℚ) ≤ Int.fract raw := Int.fract_nonneg raw
  have hlt : Int.fract raw < 1 := Int.fract_lt_one raw
  have e1 : raw + 1/2 = (⌊raw⌋ : ℚ) + (Int.fract raw + 1/2) := by
    rw [Int.fract]; ring
  have e2 : 100 - raw + 1/2 = ((100 - ⌊raw⌋ : ℤ) : ℚ) + (1/2 - Int.fract raw) := by
    rw [Int.fract]; push_cast; ring
  unfold jsRound
  rw [e1, e2, Int.floor_int_add, Int.floor_int_add]
  rcases lt_or_gt_of_ne hf with h | h
  · have f1 : ⌊Int.fract raw + 1/2⌋ = 0 := by
      rw [Int.floor_eq_zero_iff, Set.mem_Ico]
      constructor <;> linarith
    have f2 : ⌊1/2 - Int.fract raw⌋ = 0 := by
      rw [Int.floor_eq_zero_iff, Set.mem_Ico]
      constructor <;> linarith
    rw [f1, f2]
    omega
  · have f1 : ⌊Int.fract raw + 1/2⌋ = 1 := by
      rw [Int.floor_eq_iff]
      constructor <;> push_cast <;> linarith
    have f2 : ⌊1/2 - Int.fract raw⌋ = -1 := by
      rw [Int.floor_eq_iff]
      constructor <;> push_cast <;> linarith
    rw [f1, f2]
    omega

/-- C1 counterexample: for the raw home probability `-10` the away badge
value is 110 — neither capped at 100 nor clamped to 0 — and for the
in-range raw value `62.5` the two rounded display values sum to 101. -/
theorem win_probability_counterexample :
    winProbAwayDisplay (-10) = 110 ∧
    winProbHomeDisplay (125/2) + winProbAwayDisplay (125/2) = 101 := by
  constructor
  · norm_num [winProbAwayDisplay, jsRound, max_def]
  · norm_num [winProbHomeDisplay, winProbAwayDisplay, jsRound, max_def]

/-- C1 amended: both rendered win-probability values are clamped to a
non-negative floor (never below 0) but not capped at 100; whenever the raw
value lies in [0, 100] and is not an exact half-integer the two rounded
values sum to 100 (at a half-integer they sum to 101); for negative raw
values the home value clamps to 0 while the away value renders at least
100; and for raw = 62.3 the badges read "62%" and "38%". -/
theorem win_probability_display_amended :
    (∀ raw : ℚ, 0 ≤ winProbHomeDisplay raw ∧ 0 ≤ winProbAwayDisplay raw) ∧
    (∀ raw : ℚ, 0 ≤ raw → raw ≤ 100 → Int.fract raw ≠ 1/2 →
      winProbHomeDisplay raw + winProbAwayDisplay raw = 100) ∧
    (∀ raw : ℚ, raw < 0 → winProbHomeDisplay raw = 0 ∧ 100 ≤ winProbAwayDisplay raw) ∧
    (winProbHomeBadge (623/10) = "62%" ∧ winProbAwayBadge (623/10) = "38%") := by
  refine ⟨?_, ?_, ?_, ?_⟩
  · intro raw
    constructor
    · have hx : (0 : ℚ) ≤ max 0 raw + 1/2 := by
        have := le_max_left (0 : ℚ) raw
        linarith
      exact Int.le_floor.mpr (by exact_mod_cast hx)
    · have hx : (0 : ℚ) ≤ max 0 (100 - raw) + 1/2 := by
        have := le_max_left (0 : ℚ) (100 - raw)
        linarith
      exact Int.le_floor.mpr (by exact_mod_cast hx)
  · intro raw h0 h100 hf
    have m1 : max 0 raw = raw := max_eq_right h0
    have m2 : max 0 (100 - raw) = 100 - raw := max_eq_right (by linarith)
    unfold winProbHomeDisplay winProbAwayDisplay
    rw [m1, m2]
    exact jsRound_add_complement raw hf
  · intro raw h
    constructor
    · have m1 : max 0 raw = 0 := max_eq_left (le_of_lt h)
      unfold winProbHomeDisplay
      rw [m1]
      norm_num [jsRound]
    · have m2 : max 0 (100 - raw) = 100 - raw := max_eq_right (by linarith)
      unfold winProbAwayDisplay jsRound
      rw [m2]
      exact Int.le_floor.mpr (by push_cast; linarith)
  · have h1 : winProbHomeDisplay (623/10) = 62 := by
      norm_num [winProbHomeDisplay, jsRound, max_def]
    have h2 : winProbAwayDisplay (623/10) = 38 := by
      norm_num [winProbAwayDisplay, jsRound, max_def]
    constructor
    · unfold winProbHomeBadge
      rw [h1]
      rfl
    · unfold winProbAwayBadge
      rw [h2]
      rfl

/-- Witness for C1 amended: at raw = 62.3 (in range, not a half-integer) the
two displayed values sum to 100, and at raw = -10 the home display is 0. -/
theorem win_probability_display_amended_witness :
    (winProbHomeDisplay (623/10) + winProbAwayDisplay (623/10) = 100) ∧
    winProbHomeDisplay (-10) = 0 :=
  ⟨win_probability_display_amended.2.1 (623/10) (by norm_num) (by norm_num)
      (by norm_num [Int.fract]),
    (win_probability_display_amended.2.2.1 (-10) (by norm_num)).1⟩
